import Mathlib

/-!
Shallow embedding of the DFP ad-slot admission core
(`src/dfpFiles/adSlot.js`: class `AdSlot` and class `AdManager`).

Modelling conventions, stated once:
* JavaScript values flowing through `&&` / `||` chains are modelled by the
  inductive `JSVal` (undefined, null, booleans, numbers, strings, a DOM
  element, and the parsed `_cobj` object).  `&&` and `||` return an operand,
  not a coerced boolean, so the gate's result is a `JSVal`.
* A thrown exception is modelled with `Except Unit`; a `try`/`catch` is a
  `match` on the `Except`.
* Timestamps (`Date` values) are integer milliseconds; the throttle's
  floating-point division by `36e5` is modelled with exact rationals, which
  agree with the source at every input considered here (none sits on a
  representability boundary of the binary floats involved).
* External collaborators that are not part of this repository's source
  (the `ConflictResolver` class, `document.getElementById`, the breakpoint
  utilities, cookies, `localStorage`/`sessionStorage`) appear as fields of
  the state records `AdManagerM` / `DrainEnv`: the admission and drain code
  under verification only ever calls them, so a function-valued or
  data-valued oracle is a faithful interface model.
-/

namespace Dfp

/-- JavaScript runtime values, restricted to the shapes that can actually
reach the admission gate's `&&` chain in the source. `obj` is the parsed
`_cobj` purchase-funnel record with its two accessed fields. -/
inductive JSVal where
  | undefined
  | null
  | bool (b : Bool)
  | num (n : Int)
  | str (s : String)
  | elem (id : String)
  | obj (mc nextslotLocation : JSVal)
deriving DecidableEq

deriving instance DecidableEq for Except

/-- JavaScript truthiness for the values of `JSVal` (NaN and empty objects
do not occur in the modelled flows). -/
def jsTruthy : JSVal → Bool
  | .undefined => false
  | .null => false
  | .bool b => b
  | .num n => n != 0
  | .str s => s ≠ ""
  | .elem _ => true
  | .obj _ _ => true

/-- JavaScript `!v`. -/
def jsNot (v : JSVal) : JSVal := .bool (!jsTruthy v)

/-- JavaScript `a || b` for already-computed pure operands. -/
def jsOr (a b : JSVal) : JSVal := if jsTruthy a then a else b

/-- JavaScript `a && b` where `b` may throw; `b` is only forced when `a`
is truthy (short-circuit). -/
def jsAndE (a : Except Unit JSVal) (b : Unit → Except Unit JSVal) : Except Unit JSVal :=
  match a with
  | .error e => .error e
  | .ok v => if jsTruthy v then b () else .ok v

/-- JavaScript `a || b` where `b` may throw; `b` is only forced when `a`
is falsy (short-circuit). -/
def jsOrE (a : Except Unit JSVal) (b : Unit → Except Unit JSVal) : Except Unit JSVal :=
  match a with
  | .error e => .error e
  | .ok v => if jsTruthy v then .ok v else b ()

/-- Property read `v.mc`: throws on null/undefined, is `undefined` on
non-objects, and projects the field on the parsed `_cobj` object. -/
def jsFieldMc : JSVal → Except Unit JSVal
  | .obj mc _ => .ok mc
  | .null => .error ()
  | .undefined => .error ()
  | _ => .ok .undefined

/-- Property read `v.nextslotLocation`, same access semantics as `jsFieldMc`. -/
def jsFieldNsl : JSVal → Except Unit JSVal
  | .obj _ nsl => .ok nsl
  | .null => .error ()
  | .undefined => .error ()
  | _ => .ok .undefined

/-- JavaScript `v >= n` for the numeric values that reach this comparison in
the source (`paywallBanner.mc >= 12`); non-numeric operands compare false. -/
def jsGe (v : JSVal) (n : Int) : JSVal :=
  match v with
  | .num m => .bool (decide (n ≤ m))
  | _ => .bool false

/-- Whether `pat` is a leading segment of `s` (character lists). -/
def leadsWith : List Char → List Char → Bool
  | [], _ => true
  | _ :: _, [] => false
  | p :: ps, c :: cs => p == c && leadsWith ps cs

/-- First index at which `pat` occurs in `s`, on character lists. -/
def listIndexOf (pat : List Char) : List Char → Option Nat
  | [] => if pat.isEmpty then some 0 else none
  | c :: rest =>
    if leadsWith pat (c :: rest) then some 0
    else (listIndexOf pat rest).map (· + 1)

/-- JavaScript `s.indexOf(pat)`: first occurrence index, `-1` when absent. -/
def strIndexOf (s pat : String) : Int :=
  match listIndexOf pat.data s.data with
  | some n => (n : Int)
  | none => -1

/-- JavaScript `s.includes(pat)` (equivalently `s.indexOf(pat) > -1`). -/
def strIncludes (s pat : String) : Bool := decide (0 ≤ strIndexOf s pat)

/-- The `adTypes` enumeration exported by the source module. -/
def adTypes_maavaron : String := ".maavaron"

/-- `adTypes.interstitial`. -/
def adTypes_interstitial : String := ".new_interstitial"

/-- `adTypes.interstitialSmall`. -/
def adTypes_interstitialSmall : String := ".interstitial.mobile"

/-- `adTypes.interstitialFull`. -/
def adTypes_interstitialFull : String := ".full_interstitial.mobile"

/-- `adTypes.popunder`. -/
def adTypes_popunder : String := ".popunder"

/-- One entry of a responsive size mapping: a width×height pair or the
string `['fluid']`. -/
inductive SizeEntry where
  | size (w h : Int)
  | fluid
deriving DecidableEq

/-- The JSON record persisted under the `interstitial_DFP` key:
`{attempt: number|undefined, showTime: string|undefined}`. A present
`showTime` is a serialized date, modelled as its value in milliseconds. -/
structure ThrottleItem where
  attempt : Option Int
  showTime : Option Int
deriving DecidableEq

/-- The slot state an `AdSlot` instance carries into the admission gate. -/
structure AdSlotM where
  id : String
  type : String
  target : String
  responsive : Bool
  responsiveAdSizeMapping : List (String × List SizeEntry)
  whitelistReferrers : List String
  blacklistReferrers : List String
  htmlElement : JSVal

/-- The `AdManager` state plus every external input the admission code
reads: configuration, user, referrers, durable storage, the conflict
resolver's `isBlocked` oracle, the resolved breakpoint name and the DOM.
`interstitialItem` is `localStorage.getItem('interstitial_DFP')` — `none`
when absent, `some (.error ())` when present but not valid JSON (parsed to
`{}` by `getParsed`), `some (.ok t)` otherwise. `cobj` is the result of
`JSON.parse(localStorage.getItem('_cobj'))` (an absent item parses to
`null`); `.error ()` when that parse throws. `dom id` is
`document.getElementById(id)`: `none` when no element exists, otherwise
`some attr` where `attr` is the optional `data-audtarget` attribute. -/
structure AdManagerM where
  isReadyToRenderExternals : JSVal
  isWebView : Bool
  siteNumber : Int
  site : String
  adBlockRemoved : Bool
  isValidForsmartPhone : JSVal
  referrer : String
  documentReferrer : String
  userType : String
  ssoUserName : Option String
  isBlockedF : String → Bool
  interstitialItem : Option (Except Unit ThrottleItem)
  sessionInterstitialItem : Option String
  cobj : Except Unit JSVal
  breakpointName : String
  dom : String → Option (Option String)

/-- `getParsed`: `JSON.parse` guarded by a `try` that returns `{}` (a record
with both fields undefined) when parsing throws. -/
def getParsed : Except Unit ThrottleItem → ThrottleItem
  | .ok t => t
  | .error _ => { attempt := none, showTime := none }

/-- `isReferrerOfHaaretz`. -/
def isReferrerOfHaaretz (m : AdManagerM) : Bool :=
  strIncludes m.documentReferrer "haaretz.co" || strIncludes m.documentReferrer "themarker.com"

/-- `userIsPaying`. -/
def userIsPaying (m : AdManagerM) : Bool := m.userType == "paying"

/-- `AdSlot.isWhitelisted`: an empty whitelist always passes; otherwise the
configured referrer must contain one of the listed substrings. -/
def isWhitelisted (m : AdManagerM) (s : AdSlotM) : Bool :=
  s.whitelistReferrers.isEmpty || s.whitelistReferrers.any (fun r => strIncludes m.referrer r)

/-- `AdSlot.isBlacklisted`. -/
def isBlacklisted (m : AdManagerM) (s : AdSlotM) : Bool :=
  s.blacklistReferrers.any (fun r => strIncludes m.referrer r)

/-- Module-level site classification: `isTM`. -/
def isTM (siteNumber : Int) : Bool := siteNumber == 10 || siteNumber == 20

/-- Module-level site classification: `isHDC`. -/
def isHDC (siteNumber : Int) : Bool := siteNumber == 85

/-- Module-level site classification: `isHTZ`. -/
def isHTZ (siteNumber : Int) : Bool := !isTM siteNumber && !isHDC siteNumber

/-- `shouldDisplayAdInWebView`: outside a web-view always passes; inside,
the slot id must avoid every entry of the (site-dependent) exception list. -/
def shouldDisplayAdInWebView (m : AdManagerM) (s : AdSlotM) : Bool :=
  let adExceptions :=
    ["interstitial"] ++
      (if m.isWebView then
        (if isHTZ m.siteNumber then ["inread", "textlink"] else ["inread.2", "inread.3"])
      else [])
  !m.isWebView || adExceptions.all (fun ad => !strIncludes s.id ad)

/-- `shouldDisplayAdAfterAdBlockRemoval`. -/
def shouldDisplayAdAfterAdBlockRemoval (m : AdManagerM) (s : AdSlotM) : Bool :=
  !(m.adBlockRemoved && (s.type == adTypes_maavaron || s.type == adTypes_popunder))

/-- `shouldDisplayAdMaavaronAfterPayWallBanner`: for the haaretz site and a
maavaron slot, evaluates
`!pb || (pb.mc && pb.mc >= 12) || (pb.nextslotLocation && !pb.nextslotLocation.includes('pop'))`
on the parsed `_cobj`; the surrounding `try` keeps the initial `true` when
anything in there throws. The result is the raw JS value of that `||` chain
(which need not be a boolean). -/
def shouldDisplayAdMaavaronAfterPayWallBanner (m : AdManagerM) (s : AdSlotM) : JSVal :=
  if m.site == "haaretz" && s.type == adTypes_maavaron then
    match m.cobj with
    | .error _ => .bool true
    | .ok pb =>
      match
        jsOrE (.ok (jsNot pb)) (fun _ =>
          jsOrE (jsAndE (jsFieldMc pb) (fun _ => (jsFieldMc pb).map (fun v => jsGe v 12)))
            (fun _ =>
              jsAndE (jsFieldNsl pb) (fun _ =>
                match jsFieldNsl pb with
                | .ok (.str nsl) => .ok (.bool (!strIncludes nsl "pop"))
                | .ok _ => .error ()
                | .error e => .error e))) with
      | .ok v => v
      | .error _ => .bool true
  else .bool true

/-- `GOOGLE_INTERSTITIAL_TIME = 1.05` (63 minutes, in hours). -/
def GOOGLE_INTERSTITIAL_TIME : ℚ := 1.05

/-- `GOOGLE_INTERSTITIAL_MIN_TIME = 3 / 3600` (three seconds, in hours). -/
def GOOGLE_INTERSTITIAL_MIN_TIME : ℚ := 3 / 3600

/-- `HOUR_IN_MILLISECONDS = 36e5`. -/
def HOUR_IN_MILLISECONDS : ℚ := 3600000

/-- `Math.abs(now - new Date(itemParsed.showTime)) / HOUR_IN_MILLISECONDS`. -/
def timeHours (now showTime : Int) : ℚ :=
  |((now : ℚ) - (showTime : ℚ))| / HOUR_IN_MILLISECONDS

/-- `googleInterstitialShouldDisplay`: passes unless the slot is a Google
interstitial whose stored record has a string `showTime` lying inside the
`(GOOGLE_INTERSTITIAL_MIN_TIME, GOOGLE_INTERSTITIAL_TIME)` window. -/
def googleInterstitialShouldDisplay (m : AdManagerM) (s : AdSlotM) (now : Int) : Bool :=
  if !strIncludes s.type adTypes_interstitial then true
  else
    match m.interstitialItem with
    | none => true
    | some raw =>
      let itemParsed := getParsed raw
      match itemParsed.showTime with
      | none => true
      | some st =>
        if decide (timeHours now st < GOOGLE_INTERSTITIAL_TIME) &&
            decide (GOOGLE_INTERSTITIAL_MIN_TIME < timeHours now st) then false
        else true

/-- Association-list lookup of a breakpoint name in
`responsiveAdSizeMapping` (a missing key is JavaScript `undefined`, which is
not an `Array`). -/
def lookupMapping : List (String × List SizeEntry) → String → Option (List SizeEntry)
  | [], _ => none
  | (k, v) :: rest, key => if k == key then some v else lookupMapping rest key

/-- `doesBreakpointContainAd`: `true` for non-responsive slots; for a
responsive slot, throws when the current breakpoint has no mapping entry,
otherwise requires a non-empty mapping different from the `[[0, 0]]`
sentinel. -/
def doesBreakpointContainAd (m : AdManagerM) (s : AdSlotM) : Except Unit JSVal :=
  if s.responsive = true then
    match lookupMapping s.responsiveAdSizeMapping m.breakpointName with
    | none => .error ()
    | some mapping =>
      .ok (.bool (decide (0 < mapping.length) && !decide (mapping = [SizeEntry.size 0 0])))
  else .ok (.bool true)

/-- `haveValidCookieForSmartphoneapp`: returns the raw config value. -/
def haveValidCookieForSmartphoneapp (m : AdManagerM) : JSVal := m.isValidForsmartPhone

/-- `doesUserTypeMatchBannerTargeting` applied to a slot's target string,
including the hard-coded identity bypass. -/
def doesUserTypeMatchBannerTargeting (m : AdManagerM) (target : String) : Bool :=
  if m.ssoUserName == some "pilosmadar@gmail.com" then true
  else if target == "all" then true
  else if target == "nonPaying" then
    m.userType == "anonymous" || m.userType == "registered"
  else if target == "anonymous" then m.userType == "anonymous"
  else if target == "registered" then m.userType == "registered"
  else if target == "paying" then m.userType == "paying"
  else if target == "digitalOnly" then m.userType == "paying"
  else if target == "digitalAndPrint" then m.userType == "paying"
  else false

/-- The late-initialization block at the top of `shouldSendRequestToDfp`:
when the slot has no `htmlElement` but the DOM now has an element with its
id, attach it and recompute the target from `data-audtarget`. -/
def lateInit (m : AdManagerM) (s : AdSlotM) : AdSlotM :=
  if !jsTruthy s.htmlElement then
    match m.dom s.id with
    | some attr => { s with htmlElement := .elem s.id, target := attr.getD "all" }
    | none => s
  else s

/-- Labels for the thirteen conjuncts of the gate, in source order; the
evaluation trace below records which of them a call actually evaluated. -/
inductive GatePred where
  | slotDefined
  | readiness
  | domTarget
  | interstitialThrottle
  | conflict
  | whitelist
  | blacklist
  | webView
  | adBlock
  | paywall
  | breakpoint
  | smartphone
  | targeting
deriving DecidableEq

/-- Left-to-right evaluation of a JavaScript `&&` chain: stops at the first
falsy operand (returning that operand) or the first thrown exception, and
records the label of every conjunct it actually evaluated. -/
def evalConj : JSVal → List (GatePred × (Unit → Except Unit JSVal)) →
    Except Unit JSVal × List GatePred
  | acc, [] => (.ok acc, [])
  | acc, (l, p) :: rest =>
    if jsTruthy acc then
      match p () with
      | .error e => (.error e, [l])
      | .ok v =>
        let (r, ls) := evalConj v rest
        (r, l :: ls)
    else (.ok acc, [])

/-- The thirteen conjuncts of `shouldSendRequestToDfp`, in source order.
The first (`adSlot !== undefined`) is true here because the embedding takes
the slot as given. Each is wrapped as a possibly-throwing thunk; only
`doesBreakpointContainAd` can actually throw. -/
def gatePreds (m : AdManagerM) (s : AdSlotM) (now : Int) :
    List (GatePred × (Unit → Except Unit JSVal)) :=
  [ (.slotDefined, fun _ => .ok (.bool true)),
    (.readiness, fun _ => .ok m.isReadyToRenderExternals),
    (.domTarget, fun _ =>
      .ok (jsOr s.htmlElement (.bool (!m.isWebView && s.type == adTypes_interstitial)))),
    (.interstitialThrottle, fun _ => .ok (.bool (googleInterstitialShouldDisplay m s now))),
    (.conflict, fun _ => .ok (.bool (m.isBlockedF s.id == false))),
    (.whitelist, fun _ => .ok (.bool (isWhitelisted m s))),
    (.blacklist, fun _ => .ok (.bool (isBlacklisted m s == false))),
    (.webView, fun _ => .ok (.bool (shouldDisplayAdInWebView m s))),
    (.adBlock, fun _ => .ok (.bool (shouldDisplayAdAfterAdBlockRemoval m s))),
    (.paywall, fun _ => .ok (shouldDisplayAdMaavaronAfterPayWallBanner m s)),
    (.breakpoint, fun _ => doesBreakpointContainAd m s),
    (.smartphone, fun _ => .ok (haveValidCookieForSmartphoneapp m)),
    (.targeting, fun _ => .ok (.bool (doesUserTypeMatchBannerTargeting m s.target))) ]

/-- What one call of the gate returns: the JS value of the `&&` chain (or
`null` from the `catch`), whether the `catch` fired, and the trace of
evaluated conjuncts. -/
structure GateResult where
  value : JSVal
  errored : Bool
  trace : List GatePred
deriving DecidableEq

/-- The `try`/`catch` body of `shouldSendRequestToDfp`. -/
def gateEval (m : AdManagerM) (s : AdSlotM) (now : Int) : GateResult :=
  match evalConj (.bool true) (gatePreds m s now) with
  | (.ok v, tr) => { value := v, errored := false, trace := tr }
  | (.error _, tr) => { value := .null, errored := true, trace := tr }

/-- `AdManager.shouldSendRequestToDfp`: the late-initialization block
followed by the guarded conjunction; returns the gate result together with
the (possibly mutated) slot. The `this.adSlots.set` registry write feeds
nothing back into the decision and is not part of this state. -/
def shouldSendRequestToDfp (m : AdManagerM) (s : AdSlotM) (now : Int) :
    GateResult × AdSlotM :=
  (gateEval m (lateInit m s) now, lateInit m s)

/-- A template manager state used by the concrete instances below; each
instance overrides only the fields it is about. -/
def mBase : AdManagerM where
  isReadyToRenderExternals := .bool true
  isWebView := false
  siteNumber := 80
  site := ""
  adBlockRemoved := false
  isValidForsmartPhone := .bool true
  referrer := ""
  documentReferrer := ""
  userType := "anonymous"
  ssoUserName := none
  isBlockedF := fun _ => false
  interstitialItem := none
  sessionInterstitialItem := none
  cobj := .ok .null
  breakpointName := "xl"
  dom := fun _ => none

/-- A template slot used by the concrete instances below. -/
def sBase : AdSlotM where
  id := "slot.regular.1"
  type := "regular"
  target := "all"
  responsive := false
  responsiveAdSizeMapping := []
  whitelistReferrers := []
  blacklistReferrers := []
  htmlElement := .elem "slot.regular.1"

/-- `shouldDisplayInterstitialFull(id, now)`. The early guard returns
`false`; when the record's `showTime` is not a string the function falls off
the end and returns `undefined`. A missing `attempt` compares
`undefined < 3 = false` and therefore does not trigger the warm-up denial. -/
def shouldDisplayInterstitialFull (m : AdManagerM) (id : String) (now : Int) : JSVal :=
  if !strIncludes id adTypes_interstitialFull || !isReferrerOfHaaretz m || userIsPaying m
      || m.interstitialItem.isNone
      || decide (m.isReadyToRenderExternals = .bool false) then
    .bool false
  else
    match m.interstitialItem with
    | none => .bool false
    | some raw =>
      let itemParsed := getParsed raw
      match itemParsed.showTime with
      | none => .undefined
      | some st =>
        if (match itemParsed.attempt with
            | some a => decide (a < 3)
            | none => false) then
          .bool false
        else
          .bool (decide (timeHours now st < GOOGLE_INTERSTITIAL_TIME) &&
            decide (GOOGLE_INTERSTITIAL_MIN_TIME < timeHours now st))

/-- What one call of `shouldDisplayInterstitialSmall` returns and which of
its two writes it performed: `sessionSet` is the unconditional
`sessionStorage.setItem` on the paying path, `recordedAttempt` the
`setInterstitialShowingData()` call on the denial path. -/
structure SmallResult where
  allowed : Bool
  sessionSet : Bool
  recordedAttempt : Bool
deriving DecidableEq

/-- `shouldDisplayInterstitialSmall(id)`. On the non-paying path the record
is read from `localStorage`; `!itemParsed.attempt || itemParsed.attempt < 2`
admits a missing or zero attempt count. -/
def shouldDisplayInterstitialSmall (m : AdManagerM) (id : String) : SmallResult :=
  if strIncludes id adTypes_interstitialSmall then
    if userIsPaying m then
      { allowed := m.sessionInterstitialItem.isNone, sessionSet := true,
        recordedAttempt := false }
    else
      match m.interstitialItem with
      | none => { allowed := true, sessionSet := false, recordedAttempt := false }
      | some raw =>
        if !isReferrerOfHaaretz m then
          { allowed := true, sessionSet := false, recordedAttempt := false }
        else
          let itemParsed := getParsed raw
          if (match itemParsed.attempt with
              | none => true
              | some a => decide (a = 0) || decide (a < 2)) then
            { allowed := true, sessionSet := false, recordedAttempt := false }
          else
            { allowed := false, sessionSet := false, recordedAttempt := true }
  else { allowed := false, sessionSet := false, recordedAttempt := false }

/-- Whether the stored record exists and parses to an attempt count of at
least 2 (the durable-record half of the small-interstitial denial). -/
def recordAttemptAtLeastTwo : Option (Except Unit ThrottleItem) → Bool
  | none => false
  | some raw =>
    match (getParsed raw).attempt with
    | none => false
    | some a => decide (2 ≤ a)

/-- The small-interstitial admission policy exactly as claim C4 words it
(for refinement comparison with the source function, not translated from
the source): paying users are allowed once per session; non-paying users
are allowed unless they arrived via a direct/non-affiliate referrer AND a
durable record exists with attemptCount ≥ 2. -/
def claimSmallInterstitialAllow (m : AdManagerM) : Bool :=
  if userIsPaying m then m.sessionInterstitialItem.isNone
  else !(!isReferrerOfHaaretz m && recordAttemptAtLeastTwo m.interstitialItem)

/-- The full-interstitial window exactly as claim C3 words it (for
refinement comparison with the source function, not translated from the
source): with preconditions met, allow iff the attempt count is at least 3
and the elapsed time lies strictly between approximately 10.8 seconds
(10800 ms) and approximately 63 minutes (3780000 ms). -/
def claimFullInterstitialAllow (attempt elapsedMs : Int) : Bool :=
  decide (3 ≤ attempt) && decide (10800 < elapsedMs) && decide (elapsedMs < 3780000)

/-- JavaScript string `<` on code units, on character lists. -/
def charListLt : List Char → List Char → Bool
  | [], [] => false
  | [], _ :: _ => true
  | _ :: _, [] => false
  | a :: as, b :: bs =>
    if a.toNat < b.toNat then true
    else if b.toNat < a.toNat then false
    else charListLt as bs

/-- JavaScript `a < b` on strings (lexicographic code-unit comparison). -/
def jsLt (a b : String) : Bool := charListLt a.data b.data

/-- `AdManager.sortSlots(First, Second)`. The third branch of the source
reads `!First[0].includes(key)`: `First[0]` is the first character of
`First` (a one-character string, which can never contain the nine-character
keyword), and is `undefined` when `First` is empty — in which case the
`.includes` call throws a TypeError. -/
def sortSlots (First Second : String) : Except Unit Int :=
  let key := "billboard"
  if strIncludes First key && strIncludes Second key then
    let result := strIndexOf First key - strIndexOf Second key
    if result ≠ 0 then .ok result
    else if jsLt First Second then .ok (-1)
    else if jsLt Second First then .ok 1
    else .ok 0
  else if strIncludes First key && !strIncludes Second key then .ok (-1)
  else
    match First.data with
    | [] => .error ()
    | c :: _ =>
      if !strIncludes (String.mk [c]) key && strIncludes Second key then .ok 1
      else .ok 0

/-- Non-positive comparator result, as a sorting relation (the throwing
case is junk and is never reached on the concrete inputs considered). -/
def cmpLe (a b : String) : Bool :=
  match sortSlots a b with
  | .ok r => decide (r ≤ 0)
  | .error _ => true

/-- Insertion of one id into a `cmpLe`-sorted list. -/
def insertCmp (x : String) : List String → List String
  | [] => [x]
  | y :: rest => if cmpLe x y then x :: y :: rest else y :: insertCmp x rest

/-- Sorting a list of ids with the `sortSlots` comparator. -/
def sortIds : List String → List String
  | [] => []
  | x :: rest => insertCmp x (sortIds rest)

/-- `AdSlot.isMaavaron`: the mobile branch returns `false`, and every case
of the type switch — including the `.maavaron` case itself — returns
`false`. (The non-string type guard throws before this and is outside the
"every type string" quantification.) -/
def isMaavaron (isMobile : Bool) (type : String) : Bool :=
  if isMobile then false
  else if type == adTypes_maavaron then false
  else false

/-- Which path `AdSlot.defineSlot` took: the maavaron passback branch
(which is the only caller of `defineMaavaron`), the early return when the
gate denies, or a googletag slot definition. -/
structure DefineOutcome where
  calledDefineMaavaron : Bool
  requested : Bool
deriving DecidableEq

/-- The branch structure of `AdSlot.defineSlot`: the maavaron passback
branch first, then the admission-gate early return, then the definition
path. -/
def defineSlot (m : AdManagerM) (s : AdSlotM) (isMobile : Bool) (now : Int) : DefineOutcome :=
  if isMaavaron isMobile s.type then
    { calledDefineMaavaron := true, requested := false }
  else if !jsTruthy (shouldSendRequestToDfp m s now).1.value then
    { calledDefineMaavaron := false, requested := false }
  else
    { calledDefineMaavaron := false, requested := true }

/-- The collaborators `releaseSlotDependencies` calls, as an interface
record: the `ConflictResolver` oracles (that class is not part of this
repository's source), the registry keys, the truthiness of
`shouldSendRequestToDfp` per slot, each slot's `deferredSlot` flag, and the
two per-slot actions that can throw synchronously (`defineSlot`, `show`). -/
structure DrainEnv where
  isBlocking : String → Bool
  isBlocked : String → Bool
  getBlockedSlotsIds : String → List String
  adSlotIds : List String
  gate : String → Bool
  deferredFlag : String → Bool
  defineAct : String → Except Unit Unit
  showAct : String → Except Unit Unit

/-- The mutable state the drain touches: the conflict resolver's
`deferredSlots` set (as a duplicate-free list) plus traces of what was
hidden, gate-evaluated, and shown during the pass. -/
structure DrainState where
  deferredSlots : List String
  hidden : List String
  evaluated : List String
  shown : List String
deriving DecidableEq

/-- The body of the drain loop for one member of the deferred set: look the
slot up in the registry, re-run the gate, and on a pass delete it from the
deferred set, define it if its definition was deferred, and show it. The
returned flag reports whether an action threw (aborting the loop). The
`deferredSlot = false` flag write after a deferred definition only matters
to later passes and is not part of this state. -/
def drainStep (env : DrainEnv) (key : String) (st : DrainState) : DrainState × Bool :=
  if key ∈ env.adSlotIds then
    let st := { st with evaluated := st.evaluated ++ [key] }
    if env.gate key then
      let st := { st with deferredSlots := st.deferredSlots.erase key }
      match (if env.deferredFlag key then env.defineAct key else .ok ()) with
      | .error _ => (st, true)
      | .ok _ =>
        match env.showAct key with
        | .error _ => (st, true)
        | .ok _ => ({ st with shown := st.shown ++ [key] }, false)
    else (st, false)
  else (st, false)

/-- The drain loop over a snapshot of the deferred set (deleting only the
current member, so the live-set iteration of the source visits exactly this
snapshot); stops at the first throwing member, reporting the abort. -/
def drainGo (env : DrainEnv) : List String → DrainState → DrainState × Bool
  | [], st => (st, false)
  | k :: rest, st =>
    match drainStep env k st with
    | (st1, true) => (st1, true)
    | (st1, false) => drainGo env rest st1

/-- `AdManager.releaseSlotDependencies(adSlot)` for the slot with the given
id: after the `updateResolvedSlot` write (internal to the external
`ConflictResolver`, no effect on this state), if the slot is blocking
others, hide its still-blocked successors and then drain the deferred set.
The surrounding `try`/`catch` swallows an abort, so the result is the state
as of the throw. -/
def releaseSlotDependencies (env : DrainEnv) (id : String) (st : DrainState) : DrainState :=
  if env.isBlocking id then
    let st1 :=
      { st with
        hidden := st.hidden ++
          (env.getBlockedSlotsIds id).filter
            (fun b => env.isBlocked b && decide (b ∈ env.adSlotIds)) }
    (drainGo env st1.deferredSlots st1).1
  else st

/-- Manager state for the short-circuit witness: readiness off while every
later predicate — including a breakpoint predicate that would throw — is
armed. -/
def mC1 : AdManagerM := { mBase with isReadyToRenderExternals := .bool false }

/-- Slot for the short-circuit witness: responsive with no mapping entry,
so `doesBreakpointContainAd` would throw if it were ever reached. -/
def sC1 : AdSlotM := { sBase with responsive := true, responsiveAdSizeMapping := [] }

/-- Truthiness of a DOM element value. -/
theorem jsTruthy_elem (i : String) : jsTruthy (.elem i) = true := rfl

/-- The late-initialization block is idempotent: once an element is
attached (or none exists), a second call changes nothing. -/
theorem lateInit_idem (m : AdManagerM) (s : AdSlotM) :
    lateInit m (lateInit m s) = lateInit m s := by
  unfold lateInit
  by_cases h : jsTruthy s.htmlElement
  · simp [h]
  · cases hd : m.dom s.id with
    | none => simp [h, hd]
    | some attr => simp [h, hd, jsTruthy_elem]

/-- C1: the admission gate short-circuits on the readiness flag: whenever
`isReadyToRenderExternals` is `false`, `shouldSendRequestToDfp` returns that
falsy value (denial), no exception fires, and the evaluation trace contains
only the slot-defined check and the readiness flag — no throttle, conflict,
referrer, breakpoint or targeting predicate is evaluated, so a later
predicate that would throw is never reached. -/
theorem shouldSendRequestToDfp_short_circuits_on_readiness
    (m : AdManagerM) (s : AdSlotM) (now : Int)
    (h : m.isReadyToRenderExternals = .bool false) :
    (shouldSendRequestToDfp m s now).1 =
      { value := .bool false, errored := false,
        trace := [GatePred.slotDefined, GatePred.readiness] } := by
  simp [shouldSendRequestToDfp, gateEval, gatePreds, evalConj, h, jsTruthy]

/-- C1 witness: at a concrete state with the readiness flag off and a slot
whose breakpoint predicate would throw, the gate denies cleanly having
evaluated only the first two checks. -/
theorem shouldSendRequestToDfp_short_circuits_witness :
    mC1.isReadyToRenderExternals = JSVal.bool false ∧
      (shouldSendRequestToDfp mC1 sC1 0).1 =
        { value := .bool false, errored := false,
          trace := [GatePred.slotDefined, GatePred.readiness] } :=
  ⟨rfl, shouldSendRequestToDfp_short_circuits_on_readiness mC1 sC1 0 rfl⟩

/-- C8: the admission check is idempotent: a second call of
`shouldSendRequestToDfp` on the slot returned by the first call, with the
manager state, DOM, storage, referrer, conflict state, user and clock
unchanged, returns the same gate result and the same slot. (The gate's only
mutation is the late `htmlElement` attachment, which is idempotent; no gate
predicate writes to storage.) -/
theorem shouldSendRequestToDfp_idempotent (m : AdManagerM) (s : AdSlotM) (now : Int) :
    shouldSendRequestToDfp m (shouldSendRequestToDfp m s now).2 now =
      shouldSendRequestToDfp m s now := by
  simp [shouldSendRequestToDfp, lateInit_idem]

/-- C10: `isMaavaron` returns `false` for every mobile flag and every type
string — the mobile branch and every case of the type switch, including the
`.maavaron` type itself, return `false` — and consequently `defineSlot`
never takes the maavaron passback branch, so `defineMaavaron` is never
invoked from `defineSlot`. -/
theorem isMaavaron_always_false_defineMaavaron_unreachable :
    (∀ (isMobile : Bool) (type : String), isMaavaron isMobile type = false) ∧
      (∀ (m : AdManagerM) (s : AdSlotM) (isMobile : Bool) (now : Int),
        (defineSlot m s isMobile now).calledDefineMaavaron = false) := by
  have h1 : ∀ (isMobile : Bool) (type : String), isMaavaron isMobile type = false := by
    intro isMobile type
    simp [isMaavaron]
  refine ⟨h1, ?_⟩
  intro m s isMobile now
  unfold defineSlot
  rw [h1]
  simp only [Bool.false_eq_true, if_false]
  split <;> rfl

/-- Slot whose breakpoint predicate throws: responsive with no mapping
entry for the current breakpoint; every predicate before it passes. -/
def sErr5 : AdSlotM := { sBase with responsive := true }

/-- Manager state for the ordinary-denial-returns-null input: haaretz site,
stored `_cobj` record `{mc: 5, nextslotLocation: null}`. -/
def mDeny5 : AdManagerM :=
  { mBase with site := "haaretz", cobj := .ok (.obj (.num 5) .null) }

/-- Maavaron-typed slot reaching the paywall-banner predicate. -/
def sDeny5 : AdSlotM := { sBase with type := ".maavaron" }

/-- C5 counterexample: the errored result and an ordinary policy denial can
coincide. At `(mBase, sErr5)` the breakpoint predicate throws, the catch
fires, and the gate returns `null`; at `(mDeny5, sDeny5)` no exception
occurs, yet the paywall-banner predicate evaluates
`false || (pb.nextslotLocation && ...)` on a record whose
`nextslotLocation` is `null`, the conjunction returns that `null`, and the
gate returns `null` as an ordinary denial — the same value as the errored
result. -/
theorem gate_null_denial_matches_errored :
    (shouldSendRequestToDfp mBase sErr5 0).1.errored = true ∧
      (shouldSendRequestToDfp mBase sErr5 0).1.value = JSVal.null ∧
      (shouldSendRequestToDfp mDeny5 sDeny5 0).1.errored = false ∧
      (shouldSendRequestToDfp mDeny5 sDeny5 0).1.value = JSVal.null := by
  decide

/-- C5 (amended): any uncaught exception inside a gate predicate is caught
by the gate, which returns `null` — fail-closed (a falsy value, so
admission is not granted). The `null` differs from the boolean `false` of a
typical policy denial, but it is not distinguishable from every ordinary
denial, since the paywall-banner predicate can itself produce a `null`
denial. -/
theorem gate_errored_returns_null_fail_closed
    (m : AdManagerM) (s : AdSlotM) (now : Int)
    (h : (shouldSendRequestToDfp m s now).1.errored = true) :
    (shouldSendRequestToDfp m s now).1.value = JSVal.null ∧
      jsTruthy (shouldSendRequestToDfp m s now).1.value = false := by
  unfold shouldSendRequestToDfp gateEval at h ⊢
  cases hx : evalConj (.bool true) (gatePreds m (lateInit m s) now) with
  | mk r tr =>
    cases r with
    | ok v => rw [hx] at h; simp at h
    | error e => exact ⟨rfl, rfl⟩

/-- C5 witness: at the concrete erroring input the gate reports an
exception and the amended theorem yields the `null`, fail-closed result. -/
theorem gate_errored_returns_null_fail_closed_witness :
    (shouldSendRequestToDfp mBase sErr5 0).1.errored = true ∧
      (shouldSendRequestToDfp mBase sErr5 0).1.value = JSVal.null :=
  ⟨by decide, (gate_errored_returns_null_fail_closed mBase sErr5 0 (by decide)).1⟩

/-- The upper bound of the rational window test, in integer milliseconds:
`|now - showTime| / 36e5 < 1.05` iff `|now - showTime| < 3780000` (63
minutes). -/
theorem timeHours_lt_upper (now st : Int) :
    timeHours now st < GOOGLE_INTERSTITIAL_TIME ↔ |now - st| < 3780000 := by
  unfold timeHours GOOGLE_INTERSTITIAL_TIME HOUR_IN_MILLISECONDS
  rw [div_lt_iff₀ (by norm_num)]
  rw [show ((now : ℚ) - (st : ℚ)) = ((now - st : Int) : ℚ) by push_cast; ring]
  rw [← Int.cast_abs]
  rw [show (1.05 : ℚ) * 3600000 = 3780000 by norm_num]
  exact_mod_cast Iff.rfl

/-- The lower bound of the rational window test, in integer milliseconds:
`3 / 3600 < |now - showTime| / 36e5` iff `3000 < |now - showTime|` (three
seconds). -/
theorem timeHours_gt_lower (now st : Int) :
    GOOGLE_INTERSTITIAL_MIN_TIME < timeHours now st ↔ 3000 < |now - st| := by
  unfold timeHours GOOGLE_INTERSTITIAL_MIN_TIME HOUR_IN_MILLISECONDS
  rw [lt_div_iff₀ (by norm_num)]
  rw [show ((now : ℚ) - (st : ℚ)) = ((now - st : Int) : ℚ) by push_cast; ring]
  rw [← Int.cast_abs]
  rw [show (3 : ℚ) / 3600 * 3600000 = 3000 by norm_num]
  exact_mod_cast Iff.rfl

/-- Manager state for the full-interstitial throttle: affiliate referrer,
non-paying user, readiness on, record `{attempt: 3, showTime: 0}`. -/
def mC3 : AdManagerM :=
  { mBase with
    documentReferrer := "https://www.haaretz.co.il/"
    interstitialItem := some (.ok { attempt := some 3, showTime := some 0 }) }

/-- Same state with `{attempt: 2, showTime: 0}`. -/
def mC3a : AdManagerM :=
  { mC3 with interstitialItem := some (.ok { attempt := some 2, showTime := some 0 }) }

/-- C3 counterexample: the claimed minimum cooldown of approximately 10.8
seconds is wrong: at an elapsed time of 5000 ms (five seconds, well below
10.8 s) with `attempt = 3`, the code allows the presentation because the
actual constant `GOOGLE_INTERSTITIAL_MIN_TIME = 3/3600` hours is three
seconds, while the claim's policy (`claimFullInterstitialAllow`) denies. -/
theorem interstitialFull_allows_below_claimed_cooldown :
    shouldDisplayInterstitialFull mC3 "boxes.full_interstitial.mobile" 5000 =
      JSVal.bool true ∧
      claimFullInterstitialAllow 3 5000 = false := by
  constructor
  · unfold shouldDisplayInterstitialFull
    norm_num [mC3, mBase, isReferrerOfHaaretz, userIsPaying, getParsed,
      decide_eq_true_eq, timeHours_lt_upper, timeHours_gt_lower]
    decide
  · decide

/-- C3 (amended): under the claim's preconditions — full-interstitial id,
affiliate referrer, non-paying user, readiness flag true, durable record
with an attempt count and a recorded timestamp — the check denies when the
attempt count is below 3, and otherwise allows exactly when the elapsed
time lies strictly between 3 seconds (3000 ms: the actual
`GOOGLE_INTERSTITIAL_MIN_TIME` of 3/3600 hours, not the claimed ≈10.8 s)
and 63 minutes (3780000 ms). -/
theorem shouldDisplayInterstitialFull_window_spec
    (m : AdManagerM) (id : String) (now st a : Int)
    (h1 : strIncludes id adTypes_interstitialFull = true)
    (h2 : isReferrerOfHaaretz m = true)
    (h3 : userIsPaying m = false)
    (h4 : m.isReadyToRenderExternals = .bool true)
    (h5 : m.interstitialItem = some (.ok { attempt := some a, showTime := some st })) :
    shouldDisplayInterstitialFull m id now =
      .bool (decide (3 ≤ a) && decide (3000 < |now - st|) &&
        decide (|now - st| < 3780000)) := by
  unfold shouldDisplayInterstitialFull
  rw [h5]
  simp only [h1, h2, h3, h4, Bool.not_true, Option.isNone_some, Bool.false_or,
    Bool.or_false, Bool.or_self, getParsed, Bool.false_eq_true, if_false,
    decide_eq_true_eq, JSVal.bool.injEq, reduceCtorEq, decide_False]
  by_cases ha : a < 3
  · have hna : ¬(3 ≤ a) := by omega
    simp [ha, hna]
  · have hya : 3 ≤ a := by omega
    simp only [ha, decide_False, Bool.false_eq_true, if_false, hya, decide_True,
      Bool.true_and]
    have h6 : decide (timeHours now st < GOOGLE_INTERSTITIAL_TIME) =
        decide (|now - st| < 3780000) := by
      simp [decide_eq_decide, timeHours_lt_upper]
    have h7 : decide (GOOGLE_INTERSTITIAL_MIN_TIME < timeHours now st) =
        decide (3000 < |now - st|) := by
      simp [decide_eq_decide, timeHours_gt_lower]
    rw [h6, h7, Bool.and_comm]

/-- C3 witness: the claim's three concrete probes, all derived from the
amended window theorem: `{attempt: 2, showTime: T}` at `T + 30min` is
denied; `{attempt: 3, showTime: T}` at `T + 30min` is allowed and at
`T + 70min` is denied. -/
theorem shouldDisplayInterstitialFull_window_spec_witness :
    shouldDisplayInterstitialFull mC3a "boxes.full_interstitial.mobile" 1800000 =
      JSVal.bool false ∧
    shouldDisplayInterstitialFull mC3 "boxes.full_interstitial.mobile" 1800000 =
      JSVal.bool true ∧
    shouldDisplayInterstitialFull mC3 "boxes.full_interstitial.mobile" 4200000 =
      JSVal.bool false := by
  refine ⟨?_, ?_, ?_⟩
  · rw [shouldDisplayInterstitialFull_window_spec mC3a "boxes.full_interstitial.mobile"
      1800000 0 2 (by decide) (by decide) (by decide) rfl rfl]
    decide
  · rw [shouldDisplayInterstitialFull_window_spec mC3 "boxes.full_interstitial.mobile"
      1800000 0 3 (by decide) (by decide) (by decide) rfl rfl]
    decide
  · rw [shouldDisplayInterstitialFull_window_spec mC3 "boxes.full_interstitial.mobile"
      4200000 0 3 (by decide) (by decide) (by decide) rfl rfl]
    decide

/-- Manager state for the small-interstitial counterexample: non-paying
user, affiliate referrer (haaretz.co), durable record `{attempt: 2}`. -/
def mC4 : AdManagerM :=
  { mBase with
    userType := "anonymous"
    documentReferrer := "https://www.haaretz.co.il/"
    interstitialItem := some (.ok { attempt := some 2, showTime := none }) }

/-- Paying-user state with no session flag set. -/
def mC4p : AdManagerM := { mBase with userType := "paying" }

/-- C4 counterexample: the claim's referrer condition is inverted. At a
concrete non-paying state whose referrer IS an affiliate
(`haaretz.co`) and whose durable record has `attempt = 2`, the claim's own
policy (`claimSmallInterstitialAllow`, which only denies for a
direct/non-affiliate referrer) allows, but the source denies: the code's
denial requires `isReferrerOfHaaretz()` to be true, not false. -/
theorem interstitialSmall_denies_affiliate_referrer :
    isReferrerOfHaaretz mC4 = true ∧
      userIsPaying mC4 = false ∧
      claimSmallInterstitialAllow mC4 = true ∧
      (shouldDisplayInterstitialSmall mC4 "boxes.interstitial.mobile").allowed = false := by
  decide

/-- C4 (amended): for a small-interstitial slot id: a paying user is
allowed iff the session flag is not yet set, and the flag is set by the
check; a non-paying user is allowed unconditionally unless the user arrived
via an affiliate referrer (haaretz.co / themarker.com) AND a durable record
exists with attemptCount ≥ 2 — in that combined case the check denies. -/
theorem shouldDisplayInterstitialSmall_policy
    (m : AdManagerM) (id : String)
    (h : strIncludes id adTypes_interstitialSmall = true) :
    (userIsPaying m = true →
      shouldDisplayInterstitialSmall m id =
        { allowed := m.sessionInterstitialItem.isNone, sessionSet := true,
          recordedAttempt := false }) ∧
    (userIsPaying m = false →
      (shouldDisplayInterstitialSmall m id).allowed =
        !(isReferrerOfHaaretz m && recordAttemptAtLeastTwo m.interstitialItem)) := by
  unfold shouldDisplayInterstitialSmall
  constructor
  · intro hp
    simp [h, hp]
  · intro hp
    simp only [h, if_true, hp, Bool.false_eq_true, if_false]
    cases hitem : m.interstitialItem with
    | none => simp [recordAttemptAtLeastTwo]
    | some raw =>
      by_cases hr : isReferrerOfHaaretz m
      · simp only [hr, Bool.not_true, Bool.false_eq_true, if_false,
          recordAttemptAtLeastTwo, Bool.true_and]
        cases hatt : (getParsed raw).attempt with
        | none => simp [hatt]
        | some a =>
          by_cases h2 : 2 ≤ a
          · have hne : ¬(a = 0) := by omega
            have hlt : ¬(a < 2) := by omega
            simp [hatt, h2, hne, hlt]
          · have hlt : a < 2 := by omega
            simp [hatt, h2, hlt]
      · simp [hr, recordAttemptAtLeastTwo]

/-- C4 witness: the amended policy applied at concrete inputs — a paying
user with no session flag is allowed and the flag is set; the non-paying
affiliate-referrer state with `attempt = 2` is denied. -/
theorem shouldDisplayInterstitialSmall_policy_witness :
    shouldDisplayInterstitialSmall mC4p "boxes.interstitial.mobile" =
      { allowed := true, sessionSet := true, recordedAttempt := false } ∧
      (shouldDisplayInterstitialSmall mC4 "boxes.interstitial.mobile").allowed = false := by
  constructor
  · have h := (shouldDisplayInterstitialSmall_policy mC4p "boxes.interstitial.mobile"
      (by decide)).1 (by decide)
    rw [h]
    decide
  · have h := (shouldDisplayInterstitialSmall_policy mC4 "boxes.interstitial.mobile"
      (by decide)).2 (by decide)
    rw [h]
    decide

/-- Responsive slot with the claim's example mapping
`{tierA: [[0,0]], tierB: [[300,250]]}`. -/
def sTier : AdSlotM :=
  { sBase with
    responsive := true
    responsiveAdSizeMapping :=
      [("tierA", [SizeEntry.size 0 0]), ("tierB", [SizeEntry.size 300 250])] }

/-- Manager state resolving the current breakpoint to `tierA`. -/
def mTierA : AdManagerM := { mBase with breakpointName := "tierA" }

/-- Manager state resolving the current breakpoint to `tierB`. -/
def mTierB : AdManagerM := { mBase with breakpointName := "tierB" }

/-- Manager state resolving the current breakpoint to a tier the slot has
no entry for. -/
def mTierC : AdManagerM := { mBase with breakpointName := "tierC" }

/-- C7: for every responsive slot, `doesBreakpointContainAd` returns true
iff the slot's size-mapping entry for the current breakpoint is present,
non-empty, and not the `[[0,0]]` sentinel; a missing entry throws (surfaced
configuration error) rather than being treated as absent; and on the
example mapping `{tierA: [[0,0]], tierB: [[300,250]]}` the check is false
at `tierA` and true at `tierB`. -/
theorem doesBreakpointContainAd_spec :
    (∀ (m : AdManagerM) (s : AdSlotM), s.responsive = true →
      ((doesBreakpointContainAd m s = .ok (.bool true)) ↔
        ∃ l, lookupMapping s.responsiveAdSizeMapping m.breakpointName = some l ∧
          l ≠ [] ∧ l ≠ [SizeEntry.size 0 0]) ∧
      (lookupMapping s.responsiveAdSizeMapping m.breakpointName = none →
        doesBreakpointContainAd m s = .error ())) ∧
    doesBreakpointContainAd mTierA sTier = .ok (.bool false) ∧
    doesBreakpointContainAd mTierB sTier = .ok (.bool true) := by
  refine ⟨fun m s hresp => ⟨?_, ?_⟩, by decide, by decide⟩
  · unfold doesBreakpointContainAd
    rw [if_pos hresp]
    cases hl : lookupMapping s.responsiveAdSizeMapping m.breakpointName with
    | none => simp
    | some l =>
      simp only [Except.ok.injEq, JSVal.bool.injEq, Bool.and_eq_true,
        decide_eq_true_eq, Bool.not_eq_true', decide_eq_false_iff_not,
        Option.some.injEq]
      constructor
      · rintro ⟨hlen, hsent⟩
        exact ⟨l, rfl, List.length_pos.mp hlen, hsent⟩
      · rintro ⟨l2, hl2, hne, hsent⟩
        cases hl2
        exact ⟨List.length_pos.mpr hne, hsent⟩
  · intro hnone
    unfold doesBreakpointContainAd
    rw [if_pos hresp, hnone]

/-- C7 witness: at the `tierC` breakpoint the slot has no entry at all, and
the check surfaces the configuration error. -/
theorem doesBreakpointContainAd_spec_witness :
    sTier.responsive = true ∧
      lookupMapping sTier.responsiveAdSizeMapping mTierC.breakpointName = none ∧
      doesBreakpointContainAd mTierC sTier = .error () :=
  ⟨rfl, by decide, (doesBreakpointContainAd_spec.1 mTierC sTier rfl).2 (by decide)⟩

/-- A one-character string never contains the nine-character keyword
`billboard` (the semantics of the source's `First[0].includes(key)` on a
nonempty `First`). -/
theorem singleChar_not_billboard (c : Char) :
    strIncludes (String.mk [c]) "billboard" = false := by
  have hm : (String.mk [c]).data = [c] := rfl
  have hb : "billboard".data = ['b', 'i', 'l', 'l', 'b', 'o', 'a', 'r', 'd'] := rfl
  simp [strIncludes, strIndexOf, listIndexOf, hm, hb, leadsWith]

/-- A string with an empty character list is the empty string. -/
theorem eq_empty_of_data_nil (a : String) (h : a.data = []) : a = "" :=
  String.ext (h.trans rfl)

/-- C9 (amended): the comparator places every id containing `billboard`
before every id lacking it, except that the lacking id must be nonempty on
the left: comparing an empty first id throws a TypeError (`First[0]` is
`undefined`). Among ids that both contain the keyword it orders by the
keyword's first-occurrence position and then lexicographically, and sorting
the claim's example list yields `a.billboard.1`, `x.billboard.2`,
`z.other`. -/
theorem sortSlots_ordering_spec :
    (∀ a b : String, strIncludes a "billboard" = true →
      strIncludes b "billboard" = false → sortSlots a b = .ok (-1)) ∧
    (∀ a b : String, a ≠ "" → strIncludes a "billboard" = false →
      strIncludes b "billboard" = true → sortSlots a b = .ok 1) ∧
    (∀ a b : String, strIncludes a "billboard" = true →
      strIncludes b "billboard" = true →
      (strIndexOf a "billboard" < strIndexOf b "billboard" →
        sortSlots a b = .ok (strIndexOf a "billboard" - strIndexOf b "billboard") ∧
          strIndexOf a "billboard" - strIndexOf b "billboard" < 0) ∧
      (strIndexOf a "billboard" = strIndexOf b "billboard" → jsLt a b = true →
        sortSlots a b = .ok (-1))) ∧
    sortIds ["x.billboard.2", "a.billboard.1", "z.other"] =
      ["a.billboard.1", "x.billboard.2", "z.other"] := by
  refine ⟨?_, ?_, ?_, by decide⟩
  · intro a b ha hb
    simp [sortSlots, ha, hb]
  · intro a b hne ha hb
    cases hdata : a.data with
    | nil => exact absurd (eq_empty_of_data_nil a hdata) hne
    | cons c cs =>
      simp [sortSlots, ha, hb, hdata, singleChar_not_billboard]
  · intro a b ha hb
    constructor
    · intro hlt
      have hd : strIndexOf a "billboard" - strIndexOf b "billboard" ≠ 0 := by omega
      refine ⟨?_, by omega⟩
      simp [sortSlots, ha, hb, hd]
    · intro heq hab
      have hd : ¬(strIndexOf a "billboard" - strIndexOf b "billboard" ≠ 0) := by omega
      simp [sortSlots, ha, hb, hd, hab]

/-- C9 witness: keyword-containing ids sort before (and lacking nonempty
ids after) at concrete inputs, derived from the ordering theorem. -/
theorem sortSlots_ordering_spec_witness :
    sortSlots "z.billboard" "z.other" = .ok (-1) ∧
      sortSlots "z.other" "z.billboard" = .ok 1 :=
  ⟨sortSlots_ordering_spec.1 "z.billboard" "z.other" (by decide) (by decide),
    sortSlots_ordering_spec.2.1 "z.other" "z.billboard" (by decide) (by decide) (by decide)⟩

/-- C9 counterexample: the empty id lacks the keyword, `a.billboard.1`
contains it, yet the comparator does not place the empty id after — it
throws (the source dereferences `First[0]`, which is `undefined` for an
empty `First`, and calls `.includes` on it). -/
theorem sortSlots_throws_on_empty_first :
    strIncludes "" "billboard" = false ∧
      strIncludes "a.billboard.1" "billboard" = true ∧
      sortSlots "" "a.billboard.1" = .error () := by
  decide

/-- Under throw-free actions, one drain pass over a snapshot appends the
registry members of the snapshot to the evaluated trace, shows every
gate-passer, erases every gate-passer from the deferred set, and never
aborts. -/
theorem drainGo_no_throw (env : DrainEnv)
    (hdef : ∀ k, env.defineAct k = .ok ())
    (hshow : ∀ k, env.showAct k = .ok ()) :
    ∀ (l : List String) (st : DrainState),
      drainGo env l st =
        ({ st with
            deferredSlots := l.foldl
              (fun d k => if decide (k ∈ env.adSlotIds) && env.gate k then d.erase k else d)
              st.deferredSlots
            evaluated := st.evaluated ++ l.filter (fun k => decide (k ∈ env.adSlotIds))
            shown := st.shown ++
              l.filter (fun k => decide (k ∈ env.adSlotIds) && env.gate k) }, false) := by
  intro l
  induction l with
  | nil => intro st; simp [drainGo]
  | cons k rest ih =>
    intro st
    by_cases hk : k ∈ env.adSlotIds
    · by_cases hg : env.gate k
      · simp [drainGo, drainStep, hdef k, hshow k, hk, hg, ih, List.filter_cons]
      · simp [drainGo, drainStep, hk, hg, ih, List.filter_cons]
    · simp [drainGo, drainStep, hk, ih, List.filter_cons]

/-- Membership after folding conditional erasures of the traversed keys
over a duplicate-free list: exactly the traversed keys satisfying the
predicate are gone. -/
theorem foldl_eraseIf_mem (p : String → Bool) :
    ∀ (l d : List String), d.Nodup → ∀ x : String,
      (x ∈ l.foldl (fun d k => if p k then d.erase k else d) d ↔
        x ∈ d ∧ ¬(x ∈ l ∧ p x = true)) := by
  intro l
  induction l with
  | nil => intro d hd x; simp
  | cons k rest ih =>
    intro d hd x
    rw [List.foldl_cons]
    by_cases hk : p k
    · rw [if_pos hk, ih (d.erase k) (hd.erase k) x, hd.mem_erase_iff]
      constructor
      · rintro ⟨⟨hxk, hxd⟩, hrest⟩
        refine ⟨hxd, ?_⟩
        rintro ⟨hmem, hpx⟩
        rcases List.mem_cons.mp hmem with h | h
        · exact hxk h
        · exact hrest ⟨h, hpx⟩
      · rintro ⟨hxd, hno⟩
        by_cases hxk : x = k
        · exact absurd ⟨List.mem_cons.mpr (Or.inl hxk), by rw [hxk]; exact hk⟩ hno
        · exact ⟨⟨hxk, hxd⟩, fun hc => hno ⟨List.mem_cons.mpr (Or.inr hc.1), hc.2⟩⟩
    · rw [if_neg hk, ih d hd x]
      constructor
      · rintro ⟨hxd, hrest⟩
        refine ⟨hxd, ?_⟩
        rintro ⟨hmem, hpx⟩
        rcases List.mem_cons.mp hmem with h | h
        · rw [h] at hpx
          exact hk hpx
        · exact hrest ⟨h, hpx⟩
      · rintro ⟨hxd, hno⟩
        exact ⟨hxd, fun hc => hno ⟨List.mem_cons.mpr (Or.inr hc.1), hc.2⟩⟩

/-- C2 (amended): after an outcome for a slot that is blocking others, and
with throw-free per-slot actions, the drain iterates the deferred set,
re-runs the admission gate for every member present in the slot registry,
and removes exactly the members for which the gate passes: a member that is
no longer blocked but fails the gate remains in the DeferredSet — removal
does depend on passing the gate. -/
theorem releaseSlotDependencies_removes_exactly_gate_passers
    (env : DrainEnv) (id : String) (st : DrainState)
    (hdef : ∀ k, env.defineAct k = .ok ())
    (hshow : ∀ k, env.showAct k = .ok ())
    (hb : env.isBlocking id = true)
    (hnd : st.deferredSlots.Nodup) :
    (∀ x : String,
      x ∈ (releaseSlotDependencies env id st).deferredSlots ↔
        (x ∈ st.deferredSlots ∧ ¬(x ∈ env.adSlotIds ∧ env.gate x = true))) ∧
    (releaseSlotDependencies env id st).evaluated =
      st.evaluated ++ st.deferredSlots.filter (fun k => decide (k ∈ env.adSlotIds)) := by
  unfold releaseSlotDependencies
  rw [hb]
  simp only [if_true]
  rw [drainGo_no_throw env hdef hshow]
  constructor
  · intro x
    rw [foldl_eraseIf_mem (fun k => decide (k ∈ env.adSlotIds) && env.gate k)
      st.deferredSlots st.deferredSlots hnd x]
    simp only [Bool.and_eq_true, decide_eq_true_eq]
    constructor
    · rintro ⟨hxd, hno⟩
      exact ⟨hxd, fun hc => hno ⟨hxd, hc⟩⟩
    · rintro ⟨hxd, hno⟩
      exact ⟨hxd, fun hc => hno hc.2⟩
  · rfl

/-- Drain environment for the C2 witness: two registered deferred slots,
one passing the gate, one failing. -/
def envC2w : DrainEnv where
  isBlocking := fun s => s == "outcome.slot"
  isBlocked := fun _ => false
  getBlockedSlotsIds := fun _ => []
  adSlotIds := ["pass.slot", "fail.slot"]
  gate := fun k => k == "pass.slot"
  deferredFlag := fun _ => false
  defineAct := fun _ => .ok ()
  showAct := fun _ => .ok ()

/-- Deferred-set state for the C2 witness. -/
def stC2w : DrainState where
  deferredSlots := ["pass.slot", "fail.slot"]
  hidden := []
  evaluated := []
  shown := []

/-- C2 witness: the amended drain characterization applied at a concrete
state — the gate-failing member stays in the deferred set. -/
theorem releaseSlotDependencies_removes_exactly_gate_passers_witness :
    envC2w.isBlocking "outcome.slot" = true ∧
      stC2w.deferredSlots.Nodup ∧
      ("fail.slot" ∈ (releaseSlotDependencies envC2w "outcome.slot" stC2w).deferredSlots ↔
        ("fail.slot" ∈ stC2w.deferredSlots ∧
          ¬("fail.slot" ∈ envC2w.adSlotIds ∧ envC2w.gate "fail.slot" = true))) :=
  ⟨rfl, by decide,
    (releaseSlotDependencies_removes_exactly_gate_passers envC2w "outcome.slot" stC2w
      (fun _ => rfl) (fun _ => rfl) rfl (by decide)).1 "fail.slot"⟩

/-- Manager state for the C2 counterexample: the configured referrer
matches the slot's blacklist, so the real admission gate denies. -/
def mC2 : AdManagerM := { mBase with referrer := "https://bad.example/page" }

/-- The deferred slot of the C2 counterexample: not blocked, registered,
but blacklisted. -/
def sC2 : AdSlotM :=
  { sBase with
    id := "B"
    blacklistReferrers := ["bad.example"]
    htmlElement := .elem "B" }

/-- Drain environment of the C2 counterexample: slot `B` is deferred, no
longer blocked, and its gate call is the real `shouldSendRequestToDfp` on
`(mC2, sC2)`, which denies. -/
def envC2 : DrainEnv where
  isBlocking := fun s => s == "A"
  isBlocked := fun _ => false
  getBlockedSlotsIds := fun _ => ["B"]
  adSlotIds := ["B"]
  gate := fun _ => jsTruthy (shouldSendRequestToDfp mC2 sC2 0).1.value
  deferredFlag := fun _ => false
  defineAct := fun _ => .ok ()
  showAct := fun _ => .ok ()

/-- Deferred-set state of the C2 counterexample. -/
def stC2 : DrainState where
  deferredSlots := ["B"]
  hidden := []
  evaluated := []
  shown := []

/-- C2 counterexample: slot `B` is no longer blocked (`isBlocked` is false)
and the drain does re-run the gate on it, but because the gate fails
(blacklisted referrer) `B` is NOT removed from the DeferredSet — removal
does depend on passing the gate, contradicting the claim. -/
theorem releaseSlotDependencies_keeps_failing_slot_deferred :
    envC2.isBlocked "B" = false ∧
      envC2.gate "B" = false ∧
      "B" ∈ (releaseSlotDependencies envC2 "A" stC2).evaluated ∧
      "B" ∈ (releaseSlotDependencies envC2 "A" stC2).deferredSlots := by
  decide

/-- Drain environment of the C6 counterexample: two registered, deferred,
gate-passing slots; the first slot's deferred definition throws. -/
def envC6 : DrainEnv where
  isBlocking := fun s => s == "A"
  isBlocked := fun _ => false
  getBlockedSlotsIds := fun _ => ["D1", "D2"]
  adSlotIds := ["D1", "D2"]
  gate := fun _ => true
  deferredFlag := fun k => k == "D1"
  defineAct := fun k => if k == "D1" then .error () else .ok ()
  showAct := fun _ => .ok ()

/-- Deferred-set state of the C6 counterexample. -/
def stC6 : DrainState where
  deferredSlots := ["D1", "D2"]
  hidden := []
  evaluated := []
  shown := []

/-- C6 counterexample: when processing `D1` throws (its deferred
`defineSlot` call fails), the remaining member `D2` — registered,
gate-passing — is never evaluated and stays in the DeferredSet: the
per-slot failure is not isolated, contradicting the claim. -/
theorem drain_abort_skips_remaining_slot :
    (releaseSlotDependencies envC6 "A" stC6).evaluated = ["D1"] ∧
      "D2" ∉ (releaseSlotDependencies envC6 "A" stC6).evaluated ∧
      "D2" ∈ (releaseSlotDependencies envC6 "A" stC6).deferredSlots ∧
      "D2" ∈ stC6.deferredSlots ∧
      envC6.gate "D2" = true ∧
      "D2" ∈ envC6.adSlotIds := by
  decide

/-- C6 (amended): an exception raised while processing one deferred slot
aborts the remainder of that drain pass: once the pass aborts inside a
prefix of the snapshot, the members after that prefix are never processed —
the drain over the longer list equals the drain over the prefix. (The abort
is swallowed by the drain's own `try`/`catch`, so it never propagates to
the outcome handler.) -/
theorem drainGo_abort_stops_iteration (env : DrainEnv) (l1 l2 : List String)
    (st : DrainState) (h : (drainGo env l1 st).2 = true) :
    drainGo env (l1 ++ l2) st = drainGo env l1 st := by
  induction l1 generalizing st with
  | nil => simp [drainGo] at h
  | cons k rest ih =>
    rw [List.cons_append]
    cases hstep : drainStep env k st with
    | mk st1 ab =>
      cases ab
      · have h2 : (drainGo env rest st1).2 = true := by
          rw [drainGo, hstep] at h
          exact h
        rw [drainGo, hstep, drainGo, hstep]
        exact ih st1 h2
      · rw [drainGo, hstep, drainGo, hstep]

/-- C6 witness: the abort theorem applied at the concrete aborting state —
processing `["D1"]` aborts, and draining `["D1", "D2"]` is identical to
draining just `["D1"]`. -/
theorem drainGo_abort_stops_iteration_witness :
    (drainGo envC6 ["D1"] stC6).2 = true ∧
      drainGo envC6 ["D1", "D2"] stC6 = drainGo envC6 ["D1"] stC6 :=
  ⟨by decide, drainGo_abort_stops_iteration envC6 ["D1"] ["D2"] stC6 (by decide)⟩

end Dfp



